import Mathlib

/-!
Verification of the ArcFlow incremental synchronization engine
(`src/arcflow/main.py`) against its natural-language specification.

The Python code is shallowly embedded:

* Filesystem paths built with f-strings such as `f'{xml_dir}/{ead_id}.xml'`
  are embedded structurally as a directory string plus a structured file
  name (`FPath`/`FName`).  The file-name patterns used by the code
  (`{ead_id}.xml`, `{resource_id}.xml`,
  `{repo_id}_{resource_id}_batch_{n}.xml`, `{ead_id}.pdf`) are pairwise
  distinguishable in practice (resource ids are numeric, EAD ids do not
  contain the `_batch_` infix), so the structured embedding is faithful to
  the glob patterns the code uses.
* Side effects (Solr HTTP requests, file writes/removals, symlink
  creation, PDF job requests) are embedded as an event trace
  (`Ev`); external responses (HTTP status codes, raised
  `requests.RequestException`) are inputs to the embedded functions.
* Python exceptions are embedded with `Except`; `ThreadPool` result
  collection (`[r.get() for r in results]`) re-raises the first stored
  exception, embedded by `collectOutputs`.
* `datetime.strftime`/`strptime` with the `'%Y-%m-%dT%H:%M:%S%z'` pattern
  used by `save_config_file` / `__init__` are embedded over lists of
  character code points (`formatTimestamp` / `parseTimestamp`), with the
  proleptic Gregorian calendar implemented from the epoch
  (`civilFromTimestamp` / `daysBeforeYear` / `daysBeforeMonth`).
  CPython's `datetime` is restricted to years 1..9999
  (`datetime.fromtimestamp` raises beyond that), and `strptime`'s `%Y`
  directive matches exactly four digits.
-/

namespace ArcFlow

/-- Observed outcome of an HTTP request made with `requests.post`:
either a response with a status code, or a raised
`requests.RequestException`. -/
inductive SolrResp
  | status (code : Nat)
  | raised
deriving DecidableEq, Repr

/-- Structured file names, embedding the f-string naming patterns of
`main.py` (see module docstring for why this is faithful). -/
inductive FName
  /-- The name `f'{ead_id}.xml'` — the published document, keyed by publicId. -/
  | eadXml (eadId : String)
  /-- The name `f'{ead_id}.pdf'` — the derived PDF artifact. -/
  | eadPdf (eadId : String)
  /-- The name `f'{resource_id}.xml'` — the externalId-keyed alias symlink. -/
  | resAlias (resourceId : Nat)
  /-- The name `f'{repo_id}_{resource_id}_batch_{n}.xml'` — the batch symlink. -/
  | batchAlias (repoId : String) (resourceId : Nat) (batchNum : Nat)
deriving DecidableEq, Repr

/-- A path: directory part plus structured file name. -/
structure FPath where
  dir : String
  name : FName
deriving DecidableEq, Repr

/-- Events (side effects) of the embedded code, in program order. -/
inductive Ev
  /-- Event that `requests.post(solr_url + '/update', json={'delete': {'id': id}})` was sent. -/
  | solrDeleteIdReq (id : String)
  /-- the delete-by-id response came back with status 200. -/
  | solrDeleteIdOk (id : String)
  /-- the delete-by-id response came back with a non-200 status (logged). -/
  | solrDeleteIdFailed (id : String)
  /-- Event that `requests.post(... json={'delete': {'query': '*:*'}})` was sent. -/
  | solrDeleteAllReq
  /-- the delete-by-query response came back with status 200. -/
  | solrDeleteAllOk
  /-- Event that `os.remove(path)` was attempted (missing file logged, not fatal). -/
  | removeFile (path : FPath)
  /-- Event that `shutil.rmtree(dirPath)` was attempted. -/
  | removeTree (dirPath : String)
  /-- Event of `save_file(path, content)` — `open(path,'wb').write(content)`. -/
  | writeFile (path : FPath)
  /-- Event of `os.symlink(target, link)` via `create_symlink`. -/
  | makeSymlink (target : FName) (link : FPath)
  /-- Event of `request_pdf_job(repo_uri, resource_id)` — PDF job POSTed. -/
  | pdfJobRequest (resourceId : Nat)
deriving DecidableEq, Repr

/-- Python's `ead_id.replace('.', '-')` — dots become dashes for Solr ids.
The pattern is the single character `.` (code 46), so the replacement
is a character map to `-` (code 45). -/
def dashify (s : String) : String :=
  String.mk (s.data.map (fun ch => if ch.toNat = 46 then Char.ofNat 45 else ch))

/-- Embeds `ArcFlow.delete_ead` (main.py lines 1226-1255): POST a delete-by-id
to Solr; only when the response status is 200 are the local XML file,
PDF file and the `{resource_id}.xml` symlink removed.  A non-200 status
or a raised `RequestException` is logged and removes nothing. -/
def delete_ead (resp : SolrResp) (resourceId : Nat) (eadId : String)
    (xmlFilePath pdfFilePath : FPath) : List Ev :=
  Ev.solrDeleteIdReq eadId ::
  match resp with
  | SolrResp.status c =>
    if c = 200 then
      [Ev.solrDeleteIdOk eadId,
       Ev.removeFile xmlFilePath,
       Ev.removeFile pdfFilePath,
       Ev.removeFile ⟨xmlFilePath.dir, FName.resAlias resourceId⟩]
    else
      [Ev.solrDeleteIdFailed eadId]
  | SolrResp.raised => []

/-- The full-resync wipe in `ArcFlow.update_eads` (main.py lines
407-428): POST a delete-by-query `*:*`; only when the response status is
200 are the xml and pdf directories recursively removed. -/
def fullResyncWipe (resp : SolrResp) (xmlDir pdfDir : String) : List Ev :=
  Ev.solrDeleteAllReq ::
  match resp with
  | SolrResp.status c =>
    if c = 200 then [Ev.solrDeleteAllOk, Ev.removeTree xmlDir, Ev.removeTree pdfDir]
    else []
  | SolrResp.raised => []

/-- The fetched resource record fields used by `task_resource`. -/
structure Resource where
  publish : Bool
  suppressed : Bool
  ead_id : String
deriving DecidableEq, Repr

/-- Environment of one `task_resource` call: the fetched record, the
result of `get_ead_from_symlink(f'{xml_dir}/{resource_id}.xml')`, the
Solr response any `delete_ead` call will observe, and the job id
`request_pdf_job` returns. -/
structure TaskEnv where
  resource : Resource
  prevEad : Option String
  solrResp : SolrResp
  jobId : Nat
deriving DecidableEq, Repr

/-- Source sets `self.batch_size = 1000` (main.py line 46). -/
def batch_size : Nat := 1000

/-- Python's `math.ceil(a / b)` for nonnegative integers. -/
def ceilDiv (a b : Nat) : Nat := (a + b - 1) / b

/-- Result of one `task_resource` call: its event trace, the returned
`pdf_job` triple (`(repo_uri, job_id, ead_id)`, or all-`None`), and the
partition publish counter after the call. -/
structure TaskOut where
  trace : List Ev
  pdfJob : Option (String × Nat × String)
  counter : Nat
deriving DecidableEq, Repr

/-- Embeds `ArcFlow.task_resource` (main.py lines 212-331), for one record.
`counterBefore` is `self.resources_counter[repo_id]` when the call runs
(counter updates are sequentialized per partition, matching the claim's
"at the moment its counter increment occurs" reading).
Program order is preserved: PDF job request, then rename detection and
retraction of the previous EAD, then the document write and the two
symlinks; the batch number is `math.ceil(counter / batch_size)` computed
after the increment.  An ineligible record is retracted instead. -/
def task_resource (repoId repoUri : String) (resourceId : Nat)
    (xmlDir pdfDir : String) (counterBefore : Nat) (env : TaskEnv) : TaskOut :=
  let r := env.resource
  let xmlFilePath : FPath := ⟨xmlDir, FName.eadXml r.ead_id⟩
  if r.publish && !r.suppressed then
    let renameTrace :=
      match env.prevEad with
      | some prev =>
        if prev ≠ r.ead_id then
          delete_ead env.solrResp resourceId (dashify prev)
            ⟨xmlDir, FName.eadXml prev⟩ ⟨pdfDir, FName.eadPdf prev⟩
        else []
      | none => []
    let counterAfter := counterBefore + 1
    let batchNum := ceilDiv counterAfter batch_size
    { trace :=
        Ev.pdfJobRequest resourceId :: renameTrace ++
        [Ev.writeFile xmlFilePath,
         Ev.makeSymlink xmlFilePath.name ⟨xmlDir, FName.resAlias resourceId⟩,
         Ev.makeSymlink xmlFilePath.name ⟨xmlDir, FName.batchAlias repoId resourceId batchNum⟩],
      pdfJob := some (repoUri, env.jobId, r.ead_id),
      counter := counterAfter }
  else
    { trace := delete_ead env.solrResp resourceId (dashify r.ead_id)
        xmlFilePath ⟨pdfDir, FName.eadPdf r.ead_id⟩,
      pdfJob := none,
      counter := counterBefore }

/-! ### Calendar and timestamp formatting

Embedding of the `datetime` behavior the code relies on:
`save_config_file` writes
`datetime.fromtimestamp(start_time, timezone.utc).strftime('%Y-%m-%dT%H:%M:%S%z')`
and `__init__` reads it back with
`datetime.strptime(value, '%Y-%m-%dT%H:%M:%S%z')`.
Strings are embedded as lists of character code points. -/

/-- Gregorian leap-year rule (as implemented by `datetime`). -/
def isLeap (y : Nat) : Bool := (y % 4 == 0 && y % 100 != 0) || (y % 400 == 0)

def daysInMonth (y m : Nat) : Nat :=
  if m = 2 then (if isLeap y then 29 else 28)
  else if m = 4 ∨ m = 6 ∨ m = 9 ∨ m = 11 then 30
  else 31

def daysInYear (y : Nat) : Nat := if isLeap y then 366 else 365

/-- Total days in the `n` consecutive years `a, a+1, …, a+n-1`. -/
def yearSpanDaysAux (a : Nat) : Nat → Nat
  | 0 => 0
  | n+1 => yearSpanDaysAux a n + daysInYear (a + n)

/-- Days in the years `[a, b)`. -/
def yearSpanDays (a b : Nat) : Nat := yearSpanDaysAux a (b - a)

/-- Days from the epoch (1970-01-01) to the start of year `y ≥ 1970`. -/
def daysBeforeYear (y : Nat) : Nat := yearSpanDays 1970 y

/-- Days from the start of year `y` to the start of month `m` in `y`. -/
def daysBeforeMonthAux (y : Nat) : Nat → Nat
  | 0 => 0
  | n+1 => daysBeforeMonthAux y n + daysInMonth y (n+1)

def daysBeforeMonth (y m : Nat) : Nat := daysBeforeMonthAux y (m - 1)

/-- Number of leap years in `[1, y)`: closed form used to evaluate
`daysBeforeYear` without deep kernel recursion. -/
def leapsBelow (y : Nat) : Nat := (y-1)/4 - (y-1)/100 + (y-1)/400

/-- Resolve the year containing day number `z` (days since the start of
year `y`), peeling whole years; `fuel ≥ z` suffices since a year has at
least 365 days. -/
def findYear : Nat → Nat → Nat → Nat × Nat
  | 0, z, y => (y, z)
  | fuel+1, z, y => if z < daysInYear y then (y, z) else findYear fuel (z - daysInYear y) (y+1)

/-- Resolve the month containing day number `z` of year `y` (days since
the start of month `m`). -/
def findMonth (y : Nat) : Nat → Nat → Nat → Nat × Nat
  | 0, z, m => (m, z)
  | fuel+1, z, m =>
    if z < daysInMonth y m then (m, z) else findMonth y fuel (z - daysInMonth y m) (m+1)

/-- A broken-down UTC datetime at second precision. -/
structure Civil where
  year : Nat
  month : Nat
  day : Nat
  hour : Nat
  minute : Nat
  second : Nat
deriving DecidableEq, Repr

/-- Python's `datetime.fromtimestamp(t, timezone.utc)` for `t ≥ 0`, at second
precision: the broken-down UTC datetime of epoch-second `t`. -/
def civilFromTimestamp (t : Nat) : Civil :=
  let z := t / 86400
  let rem := t % 86400
  let yr := findYear z z 1970
  let mr := findMonth yr.1 12 yr.2 1
  ⟨yr.1, mr.1, mr.2 + 1, rem / 3600, rem % 3600 / 60, rem % 60⟩

/-- First epoch-second of year 10000.  CPython's `datetime` is limited
to years 1..9999, so `datetime.fromtimestamp` raises for
`t ≥ maxTimestamp` (see `maxTimestamp_eq_days`). -/
def maxTimestamp : Nat := 253402300800

/-- Value `n` rendered as exactly two zero-padded decimal digits (code
points), as `strftime` does for `%m`/`%d`/`%H`/`%M`/`%S`. -/
def pad2 (n : Nat) : List Nat := [48 + n / 10 % 10, 48 + n % 10]

/-- Value `n` rendered as exactly four decimal digits, as `strftime`'s `%Y`
does for years 1000..9999. -/
def pad4 (n : Nat) : List Nat :=
  [48 + n / 1000 % 10, 48 + n / 100 % 10, 48 + n / 10 % 10, 48 + n % 10]

/-- Python's `datetime.fromtimestamp(t, timezone.utc).strftime('%Y-%m-%dT%H:%M:%S%z')`
as a list of code points (45 `-`, 84 `T`, 58 `:`, 43 `+`; the `%z` of a
UTC-aware datetime is `+0000`); `none` when `fromtimestamp` raises
(year out of `datetime`'s 1..9999 range). -/
def formatTimestamp (t : Nat) : Option (List Nat) :=
  if t < maxTimestamp then
    let c := civilFromTimestamp t
    some (pad4 c.year ++ 45 :: pad2 c.month ++ 45 :: pad2 c.day ++ 84 :: pad2 c.hour
      ++ 58 :: pad2 c.minute ++ 58 :: pad2 c.second ++ [43, 48, 48, 48, 48])
  else none

/-- Value of a decimal digit code point. -/
def digitVal (c : Nat) : Option Nat := if 48 ≤ c ∧ c ≤ 57 then some (c - 48) else none

/-- Two-digit decimal number from two code points. -/
def dec2 (a b : Nat) : Option Nat :=
  match digitVal a, digitVal b with
  | some x, some y => some (x * 10 + y)
  | _, _ => none

/-- Four-digit decimal number from four code points. -/
def dec4 (a b c d : Nat) : Option Nat :=
  match digitVal a, digitVal b, digitVal c, digitVal d with
  | some w, some x, some y, some z => some (w * 1000 + x * 100 + y * 10 + z)
  | _, _, _, _ => none

/-- Days from the epoch to the start of year `y` as an integer
(negative for years before 1970), covering `strptime`'s full year range. -/
def daysFromEpochOfYear (y : Nat) : Int :=
  if 1970 ≤ y then (daysBeforeYear y : Int) else -(yearSpanDays y 1970 : Int)

/-- Python's `datetime.strptime(s, '%Y-%m-%dT%H:%M:%S%z')` followed by
`.timestamp()` at second precision: `%Y` matches exactly four digits,
the separators are literal, `%z` here is a sign and four digits
(hours, minutes), and the field values must form a valid datetime
(`datetime(...)` raises otherwise).  Returns the denoted epoch second
(fields as UTC minus the parsed offset), or `none` on a parse failure. -/
def parseTimestamp (s : List Nat) : Option Int :=
  match s with
  | [y3, y2, y1, y0, sepA, mo1, mo0, sepB, dy1, dy0, sepT,
     h1, h0, sepC, mi1, mi0, sepD, se1, se0, sg, o3, o2, o1, o0] =>
    if sepA = 45 ∧ sepB = 45 ∧ sepT = 84 ∧ sepC = 58 ∧ sepD = 58 ∧ (sg = 43 ∨ sg = 45) then
      match dec4 y3 y2 y1 y0, dec2 mo1 mo0, dec2 dy1 dy0, dec2 h1 h0,
          dec2 mi1 mi0, dec2 se1 se0, dec2 o3 o2, dec2 o1 o0 with
      | some y, some mo, some dy, some h, some mi, some se, some oh, some om =>
        if 1 ≤ y ∧ 1 ≤ mo ∧ mo ≤ 12 ∧ 1 ≤ dy ∧ dy ≤ daysInMonth y mo
            ∧ h ≤ 23 ∧ mi ≤ 59 ∧ se ≤ 59 ∧ oh ≤ 23 ∧ om ≤ 59 then
          let base : Int :=
            (daysFromEpochOfYear y + (daysBeforeMonth y mo : Int) + ((dy - 1 : Nat) : Int)) * 86400
              + h * 3600 + mi * 60 + se
          let off : Int := (oh * 3600 + om * 60 : Nat)
          some (base - (if sg = 43 then off else -off))
        else none
      | _, _, _, _, _, _, _, _ => none
    else none
  | _ => none

/-! ### Exception propagation (run / update_eads / task_resource) -/

/-- A raised Python exception (opaque payload). -/
structure PyErr where
  msg : String
deriving DecidableEq, Repr

/-- Embeds `task_resource` with its fallible record fetch: the source wraps no
try/except around `self.client.get(...)` (or any other statement of
`task_resource`), so a raised exception propagates out of the task and
is stored by the pool, to be re-raised by `r.get()`. -/
def task_resourceE (repoId repoUri : String) (resourceId : Nat)
    (xmlDir pdfDir : String) (counterBefore : Nat)
    (fetch : Except PyErr TaskEnv) : Except PyErr TaskOut :=
  match fetch with
  | Except.error e => Except.error e
  | Except.ok env =>
    Except.ok (task_resource repoId repoUri resourceId xmlDir pdfDir counterBefore env)

/-- Embeds `[r.get() for r in results]` (main.py line 455): collects the task
results in order; the first stored exception is re-raised. -/
def collectOutputs {α : Type} : List (Except PyErr α) → Except PyErr (List α)
  | [] => Except.ok []
  | Except.error e :: _ => Except.error e
  | Except.ok a :: rest =>
    match collectOutputs rest with
    | Except.error e => Except.error e
    | Except.ok xs => Except.ok (a :: xs)

/-- Whether `ArcFlow.run` reaches `save_config_file`: `update_eads`
collects the per-record task results (`outputs_2`, main.py line 455)
with no surrounding try/except, `run` (lines 1272-1291) has none
either, and `save_config_file` (line 1290) runs only after
`update_eads` returned normally. -/
def runReachesSave (tasks : List (Except PyErr TaskOut)) : Bool :=
  match collectOutputs tasks with
  | Except.error _ => false
  | Except.ok _ => true

/-! ### Checkpoint timestamps across a run -/

/-- The run-level clock values: `prevLastUpdated` is the checkpoint
parsed from `.arcflow.yml` at startup, `startTime` is
`self.start_time = int(time.time())` captured in `__init__` (main.py
line 67) before the client is even constructed — hence before any
listing, publishing or indexing work — and `elapsed` is the wall-clock
duration of the run's work. -/
structure RunTimes where
  prevLastUpdated : Nat
  startTime : Nat
  elapsed : Nat
deriving DecidableEq, Repr

/-- The wall clock when the run ends. -/
def endTime (r : RunTimes) : Nat := r.startTime + r.elapsed

/-- The string `save_config_file` (main.py lines 1258-1269) writes as
`last_updated`:
`datetime.fromtimestamp(self.start_time, timezone.utc).strftime('%Y-%m-%dT%H:%M:%S%z')`.
Note it formats `start_time`, not the time at the end of the run. -/
def savedCheckpoint (r : RunTimes) : Option (List Nat) := formatTimestamp r.startTime

/-! ### Process startup (`__init__`): PID lock, checkpoint, credentials -/

/-- The exit sites of `ArcFlow.__init__`. -/
inductive InitExit
  /-- line 63: a live instance holds the PID lock. -/
  | alreadyRunning
  /-- line 76: `strptime` failed on `last_updated`. -/
  | badTimestamp
  /-- line 80: `.arcflow.yml` absent and `--force-update` not given. -/
  | missingCheckpoint
  /-- line 88: `.archivessnake.yml` absent. -/
  | missingCreds
  /-- line 99: `ASnakeClient` authorization failed. -/
  | authFailed
deriving DecidableEq, Repr

/-- The literal argument of the `exit(...)` call at each exit site of
`__init__` — the source passes `0` at every one of them. -/
def exitCode : InitExit → Nat
  | InitExit.alreadyRunning => 0
  | InitExit.badTimestamp => 0
  | InitExit.missingCheckpoint => 0
  | InitExit.missingCreds => 0
  | InitExit.authFailed => 0

/-- Environment observed by `__init__`. -/
structure InitEnv where
  /-- content of `arcflow.pid` when the file exists (a well-formed pid). -/
  pidFile : Option Nat
  /-- whether `os.kill(p, 0)` succeeds, i.e. the OS reports `p` alive. -/
  alive : Nat → Bool
  /-- Result of `os.getpid()` for this process. -/
  curPid : Nat
  /-- the `--force-update` flag. -/
  forceUpdate : Bool
  /-- the `last_updated` value in `.arcflow.yml` when the file exists. -/
  checkpointContent : Option (List Nat)
  /-- whether `.archivessnake.yml` exists. -/
  credsPresent : Bool
  /-- whether `ASnakeClient(...).authorize()` succeeds. -/
  authOk : Bool

/-- Outcome of `__init__`. -/
structure InitOut where
  /-- Holds `some e` when `__init__` called `exit` at site `e`. -/
  exited : Option InitExit
  /-- content of `arcflow.pid` after `__init__`. -/
  pidFileAfter : Option Nat
  /-- whether execution reached the `open()` of `.arcflow.yml`. -/
  checkpointOpened : Bool
  /-- Value of `self.last_updated` (epoch seconds) when initialization completed. -/
  lastUpdated : Option Int
deriving DecidableEq, Repr

/-- Embeds `ArcFlow.is_running` (main.py lines 102-114): true iff the PID file
exists and the pid it names is reported alive by the OS (`os.kill(pid, 0)`
not raising); a dead pid falls through to `False`. -/
def is_running (env : InitEnv) : Bool :=
  match env.pidFile with
  | some p => env.alive p
  | none => false

/-- Embeds `ArcFlow.__init__` (main.py lines 44-99) as a function of its
environment, in source order: the PID-lock check (exit at line 63
before anything else; otherwise `create_pid_file` overwrites the PID
file), `start_time` capture, checkpoint load and parse, credential
file load, client authorization. -/
def arcflowInit (env : InitEnv) : InitOut :=
  if is_running env then
    { exited := some InitExit.alreadyRunning, pidFileAfter := env.pidFile,
      checkpointOpened := false, lastUpdated := none }
  else
    let pidAfter := some env.curPid
    let finish : Int → InitOut := fun ts =>
      if env.credsPresent then
        if env.authOk then
          { exited := none, pidFileAfter := pidAfter,
            checkpointOpened := true, lastUpdated := some ts }
        else
          { exited := some InitExit.authFailed, pidFileAfter := pidAfter,
            checkpointOpened := true, lastUpdated := some ts }
      else
        { exited := some InitExit.missingCreds, pidFileAfter := pidAfter,
          checkpointOpened := true, lastUpdated := some ts }
    match env.checkpointContent with
    | some content =>
      match parseTimestamp content with
      | some ts => finish ts
      | none =>
        { exited := some InitExit.badTimestamp, pidFileAfter := pidAfter,
          checkpointOpened := true, lastUpdated := none }
    | none =>
      if env.forceUpdate then
        -- datetime.fromtimestamp(0, timezone.utc): epoch zero
        finish 0
      else
        { exited := some InitExit.missingCheckpoint, pidFileAfter := pidAfter,
          checkpointOpened := true, lastUpdated := none }

/-! ### PDF job completion (`task_pdf`) -/

/-- Status values reported by the ArchivesSpace jobs endpoint. -/
inductive JobStatus
  | queued
  | running
  | completed
  | canceled
  | failed
deriving DecidableEq, Repr

/-- The terminal statuses of the poll loop
(`job_status in ('completed', 'canceled', 'failed')`). -/
def isTerminal : JobStatus → Bool
  | JobStatus.completed => true
  | JobStatus.canceled => true
  | JobStatus.failed => true
  | JobStatus.queued => false
  | JobStatus.running => false

/-- Observable outcome of `task_pdf`. -/
structure PdfOut where
  /-- the path handed to `save_file`: `f'{pdf_dir}/{ead_id}.pdf'`. -/
  savedPath : FPath
  /-- the bytes handed to `save_file`. -/
  savedContent : List Nat
  /-- whether the canceled/failed branch logged an error. -/
  loggedFailure : Bool
  /-- the return value of `task_pdf`. -/
  retval : Bool
deriving DecidableEq, Repr

/-- Embeds `ArcFlow.task_pdf` (main.py lines 350-394): poll until the first
terminal status.  On `completed` the job output bytes are fetched and
written to `{pdf_dir}/{ead_id}.pdf`; on `canceled`/`failed` the failure
is logged and the empty byte string `b''` is written to the same path;
either way the function returns `True`.  `polls` is the successive
statuses the loop observes; `none` means no terminal status was
observed within the modelled window (the source loops forever,
sleeping 5 seconds between polls). -/
def task_pdf (eadId pdfDir : String) (outputBytes : List Nat) :
    List JobStatus → Option PdfOut
  | [] => none
  | s :: rest =>
    if isTerminal s then
      some { savedPath := ⟨pdfDir, FName.eadPdf eadId⟩,
             savedContent := if s = JobStatus.completed then outputBytes else [],
             loggedFailure := !(s == JobStatus.completed),
             retval := true }
    else task_pdf eadId pdfDir outputBytes rest

/-! ### Per-partition publish fold and batch enumeration -/

/-- The eligibility test of `task_resource`'s publish branch:
`resource['publish'] and not resource['suppressed']`. -/
def eligible (env : TaskEnv) : Bool := env.resource.publish && !env.resource.suppressed

/-- Sequential fold of `task_resource` over one partition's records
(`(resource_id, env)` pairs), threading
`self.resources_counter[repo_id]` from `c` (set to `0` by
`task_repository`, main.py line 343) and concatenating the traces in
processing order. -/
def runTasks (repoId repoUri xmlDir pdfDir : String) :
    Nat → List (Nat × TaskEnv) → Nat × List Ev
  | c, [] => (c, [])
  | c, r :: rest =>
    let out := task_resource repoId repoUri r.1 xmlDir pdfDir c r.2
    let next := runTasks repoId repoUri xmlDir pdfDir out.counter rest
    (next.1, out.trace ++ next.2)

/-- The batch numbers `update_eads` enumerates for a final counter
value (main.py lines 457-462): `range(1, ceil(count / batch_size) + 1)`. -/
def batchNums (count : Nat) : List Nat :=
  (List.range (ceilDiv count batch_size)).map (fun b => b + 1)

/-- The resource ids of the records the publish branch handles, in
processing order. -/
def pubIds (records : List (Nat × TaskEnv)) : List Nat :=
  (records.filter (fun r => eligible r.2)).map Prod.fst

/-- The batch-symlink files of partition `repoId` created in a trace,
as `(resource_id, batch number)` pairs in creation order: exactly the
files the glob `f'{xml_dir}/{repo_id}_*_batch_{batch_num}.xml'`
matches, grouped here by their batch number component. -/
def batchLinks (repoId xmlDir : String) (tr : List Ev) : List (Nat × Nat) :=
  tr.filterMap (fun e =>
    match e with
    | Ev.makeSymlink _ ⟨d, FName.batchAlias rp rid b⟩ =>
      if rp = repoId ∧ d = xmlDir then some (rid, b) else none
    | _ => none)

/-- The spec's batch-assignment formula, for comparison with the
trace-derived `batchLinks`: starting from running count `c`, the k-th
published record (running count `c + k`, 1-based) is paired with batch
number `math.ceil(runningCount / batch_size)` at the moment of its
increment. -/
def specBatchAssignment (c : Nat) : List Nat → List (Nat × Nat)
  | [] => []
  | rid :: rest => (rid, ceilDiv (c + 1) batch_size) :: specBatchAssignment (c + 1) rest

/-! ### Solr index state -/

/-- Effect of one trace event on the Solr index, modelled as the list
of document ids present: a confirmed delete-by-id removes every
document with that id, a confirmed delete-by-query `*:*` removes
everything; no other event touches the index. -/
def applySolr (e : Ev) (idx : List String) : List String :=
  match e with
  | Ev.solrDeleteIdOk i => idx.filter (fun q => q != i)
  | Ev.solrDeleteAllOk => []
  | _ => idx

/-- The index after a trace runs against it. -/
def runSolr (idx : List String) (tr : List Ev) : List String :=
  tr.foldl (fun a e => applySolr e a) idx

/-- The index phase's effect for one freshly written document: traject
upserts it under its Solr id (the dash-normalized `ead_id`), replacing
any existing document with that id. -/
def solrUpsert (id : String) (idx : List String) : List String :=
  id :: idx.filter (fun q => q != id)

/-! ### Calendar lemmas -/

theorem daysInYear_bounds (y : Nat) : 365 ≤ daysInYear y ∧ daysInYear y ≤ 366 := by
  unfold daysInYear
  split <;> omega

theorem daysInMonth_bounds (y m : Nat) : 28 ≤ daysInMonth y m ∧ daysInMonth y m ≤ 31 := by
  unfold daysInMonth
  split
  · split <;> omega
  · split <;> omega

theorem leapsBelow_succ (y : Nat) (hy : 1 ≤ y) :
    leapsBelow (y+1) = leapsBelow y + (if isLeap y then 1 else 0) := by
  unfold leapsBelow isLeap
  split
  · rename_i h
    simp only [Bool.or_eq_true, Bool.and_eq_true, beq_iff_eq, bne_iff_ne, ne_eq] at h
    omega
  · rename_i h
    simp only [Bool.or_eq_true, Bool.and_eq_true, beq_iff_eq, bne_iff_ne, ne_eq] at h
    push_neg at h
    omega

theorem yearSpanDaysAux_1970 (n : Nat) :
    yearSpanDaysAux 1970 n + leapsBelow 1970 = 365 * n + leapsBelow (1970 + n) := by
  induction n with
  | zero => simp [yearSpanDaysAux]
  | succ n ih =>
    have hstep := leapsBelow_succ (1970 + n) (by omega)
    have he : leapsBelow (1970 + (n + 1)) = leapsBelow ((1970 + n) + 1) := by rfl
    have hd : daysInYear (1970 + n) = 365 + (if isLeap (1970 + n) then 1 else 0) := by
      unfold daysInYear; split <;> rfl
    unfold yearSpanDaysAux
    rw [he, hstep, hd]
    omega

theorem daysBeforeYear_10000 : daysBeforeYear 10000 = 2932897 := by
  have h := yearSpanDaysAux_1970 8030
  have h1 : leapsBelow 1970 = 477 := by decide
  have h2 : leapsBelow (1970 + 8030) = 2424 := by decide
  have h3 : (10000 : Nat) - 1970 = 8030 := by norm_num
  rw [daysBeforeYear, yearSpanDays, h3]
  omega

theorem maxTimestamp_eq_days : maxTimestamp = 86400 * daysBeforeYear 10000 := by
  rw [daysBeforeYear_10000]; rfl

theorem daysBeforeYear_succ (y : Nat) (hy : 1970 ≤ y) :
    daysBeforeYear (y + 1) = daysBeforeYear y + daysInYear y := by
  obtain ⟨n, rfl⟩ : ∃ n, y = 1970 + n := ⟨y - 1970, by omega⟩
  have h1 : (1970 + n + 1) - 1970 = n + 1 := by omega
  have h2 : (1970 + n) - 1970 = n := by omega
  rw [daysBeforeYear, daysBeforeYear, yearSpanDays, yearSpanDays, h1, h2]
  rfl

theorem yearSpanDaysAux_step (a n : Nat) :
    yearSpanDaysAux a n ≤ yearSpanDaysAux a (n + 1) := by
  simp only [yearSpanDaysAux]
  omega

theorem yearSpanDaysAux_mono (a : Nat) {m n : Nat} (h : m ≤ n) :
    yearSpanDaysAux a m ≤ yearSpanDaysAux a n := by
  obtain ⟨k, rfl⟩ := Nat.exists_eq_add_of_le h
  clear h
  induction k with
  | zero => exact le_rfl
  | succ k ih => exact le_trans ih (yearSpanDaysAux_step a (m + k))

theorem daysBeforeYear_mono {y y' : Nat} (h : y ≤ y') :
    daysBeforeYear y ≤ daysBeforeYear y' :=
  yearSpanDaysAux_mono 1970 (by omega)

theorem findYear_spec (fuel : Nat) : ∀ z y : Nat, z ≤ fuel → 1970 ≤ y →
    1970 ≤ (findYear fuel z y).1 ∧ y ≤ (findYear fuel z y).1 ∧
    (findYear fuel z y).2 < daysInYear (findYear fuel z y).1 ∧
    daysBeforeYear (findYear fuel z y).1 + (findYear fuel z y).2 =
      daysBeforeYear y + z := by
  induction fuel with
  | zero =>
    intro z y hz hy
    have h365 := daysInYear_bounds y
    refine ⟨?_, ?_, ?_, ?_⟩ <;> simp only [findYear] <;> omega
  | succ fuel ih =>
    intro z y hz hy
    have h365 := daysInYear_bounds y
    by_cases hlt : z < daysInYear y
    · refine ⟨?_, ?_, ?_, ?_⟩ <;> simp only [findYear, if_pos hlt] <;> omega
    · simp only [findYear, if_neg hlt]
      have hrec := ih (z - daysInYear y) (y + 1) (by omega) (by omega)
      have hsucc := daysBeforeYear_succ y hy
      refine ⟨hrec.1, by omega, hrec.2.2.1, ?_⟩
      omega

theorem daysBeforeMonth_succ (y m : Nat) (hm : 1 ≤ m) :
    daysBeforeMonth y (m + 1) = daysBeforeMonth y m + daysInMonth y m := by
  obtain ⟨k, rfl⟩ : ∃ k, m = k + 1 := ⟨m - 1, by omega⟩
  have h1 : (k + 1 + 1) - 1 = k + 1 := by omega
  have h2 : (k + 1) - 1 = k := by omega
  rw [daysBeforeMonth, daysBeforeMonth, h1, h2]
  rfl

theorem daysBeforeMonthAux_step (y n : Nat) :
    daysBeforeMonthAux y n ≤ daysBeforeMonthAux y (n + 1) := by
  simp only [daysBeforeMonthAux]
  omega

theorem daysBeforeMonthAux_mono (y : Nat) {m n : Nat} (h : m ≤ n) :
    daysBeforeMonthAux y m ≤ daysBeforeMonthAux y n := by
  obtain ⟨k, rfl⟩ := Nat.exists_eq_add_of_le h
  clear h
  induction k with
  | zero => exact le_rfl
  | succ k ih => exact le_trans ih (daysBeforeMonthAux_step y (m + k))

theorem daysBeforeMonth_13 (y : Nat) : daysBeforeMonth y 13 = daysInYear y := by
  cases h : isLeap y <;>
    norm_num [daysBeforeMonth, daysBeforeMonthAux, daysInMonth, daysInYear, h]

theorem findMonth_spec (y : Nat) (fuel : Nat) : ∀ z m : Nat, 1 ≤ m → 13 ≤ fuel + m →
    daysBeforeMonth y m + z < daysInYear y →
    1 ≤ (findMonth y fuel z m).1 ∧ (findMonth y fuel z m).1 ≤ 12 ∧
    (findMonth y fuel z m).2 < daysInMonth y (findMonth y fuel z m).1 ∧
    daysBeforeMonth y (findMonth y fuel z m).1 + (findMonth y fuel z m).2 =
      daysBeforeMonth y m + z := by
  induction fuel with
  | zero =>
    intro z m hm hfuel hlt
    exfalso
    have h13 : daysBeforeMonth y 13 ≤ daysBeforeMonth y m :=
      daysBeforeMonthAux_mono y (by omega)
    have := daysBeforeMonth_13 y
    omega
  | succ fuel ih =>
    intro z m hm hfuel hlt
    by_cases hz : z < daysInMonth y m
    · have hm12 : m ≤ 12 := by
        by_contra hgt
        have h13 : daysBeforeMonth y 13 ≤ daysBeforeMonth y m :=
          daysBeforeMonthAux_mono y (by omega)
        have := daysBeforeMonth_13 y
        omega
      refine ⟨?_, ?_, ?_, ?_⟩ <;> simp only [findMonth, if_pos hz] <;> omega
    · simp only [findMonth, if_neg hz]
      have hsucc := daysBeforeMonth_succ y m hm
      have hrec := ih (z - daysInMonth y m) (m + 1) (by omega) (by omega) (by omega)
      refine ⟨hrec.1, hrec.2.1, hrec.2.2.1, ?_⟩
      omega

theorem civilFromTimestamp_spec (t : Nat) (ht : t < maxTimestamp) :
    1970 ≤ (civilFromTimestamp t).year ∧ (civilFromTimestamp t).year ≤ 9999 ∧
    1 ≤ (civilFromTimestamp t).month ∧ (civilFromTimestamp t).month ≤ 12 ∧
    1 ≤ (civilFromTimestamp t).day ∧
    (civilFromTimestamp t).day ≤ daysInMonth (civilFromTimestamp t).year (civilFromTimestamp t).month ∧
    (civilFromTimestamp t).hour ≤ 23 ∧ (civilFromTimestamp t).minute ≤ 59 ∧
    (civilFromTimestamp t).second ≤ 59 ∧
    (daysBeforeYear (civilFromTimestamp t).year +
      daysBeforeMonth (civilFromTimestamp t).year (civilFromTimestamp t).month +
      ((civilFromTimestamp t).day - 1)) * 86400 +
      (civilFromTimestamp t).hour * 3600 + (civilFromTimestamp t).minute * 60 +
      (civilFromTimestamp t).second = t := by
  have hz : t / 86400 < daysBeforeYear 10000 := by
    rw [maxTimestamp_eq_days] at ht
    omega
  have hy := findYear_spec (t / 86400) (t / 86400) 1970 (le_refl _) (by omega)
  have hy1970 : daysBeforeYear 1970 = 0 := by rfl
  set yr := findYear (t / 86400) (t / 86400) 1970 with hyr
  have hylt : yr.1 ≤ 9999 := by
    by_contra hgt
    have : daysBeforeYear 10000 ≤ daysBeforeYear yr.1 := daysBeforeYear_mono (by omega)
    omega
  have hm1 : daysBeforeMonth yr.1 1 = 0 := by rfl
  have hm := findMonth_spec yr.1 12 yr.2 1 (by omega) (by omega) (by omega)
  set mr := findMonth yr.1 12 yr.2 1 with hmr
  have hdiv : t % 86400 < 86400 := Nat.mod_lt _ (by omega)
  have ht86 : 86400 * (t / 86400) + t % 86400 = t := Nat.div_add_mod t 86400
  simp only [civilFromTimestamp, ← hyr, ← hmr]
  refine ⟨by omega, by omega, by omega, by omega, by omega, by omega, by omega,
    by omega, by omega, ?_⟩
  omega

theorem digitVal_pad (a : Nat) (h : a ≤ 9) : digitVal (48 + a) = some a := by
  unfold digitVal
  rw [if_pos (by omega)]
  congr 1
  omega

theorem dec2_pad (n : Nat) (h : n < 100) :
    dec2 (48 + n / 10 % 10) (48 + n % 10) = some n := by
  unfold dec2
  rw [digitVal_pad _ (by omega), digitVal_pad _ (by omega)]
  show some (n / 10 % 10 * 10 + n % 10) = some n
  congr 1
  omega

theorem dec4_pad (n : Nat) (h : n < 10000) :
    dec4 (48 + n / 1000 % 10) (48 + n / 100 % 10) (48 + n / 10 % 10) (48 + n % 10) =
      some n := by
  unfold dec4
  rw [digitVal_pad _ (by omega), digitVal_pad _ (by omega),
    digitVal_pad _ (by omega), digitVal_pad _ (by omega)]
  show some (n / 1000 % 10 * 1000 + n / 100 % 10 * 100 + n / 10 % 10 * 10 + n % 10) =
    some n
  congr 1
  omega

/-- Round-trip of the checkpoint timestamp representation: for any
epoch second `t` representable by `datetime` (year at most 9999),
formatting with `'%Y-%m-%dT%H:%M:%S%z'` succeeds and parsing the
result with the same pattern yields exactly `t`. -/
theorem formatTimestamp_roundTrip (t : Nat) (ht : t < maxTimestamp) :
    ∃ s, formatTimestamp t = some s ∧ parseTimestamp s = some (t : Int) := by
  obtain ⟨hy1970, hy9999, hmo1, hmo12, hdy1, hdyM, hh, hmi, hse, hsum⟩ :=
    civilFromTimestamp_spec t ht
  set c := civilFromTimestamp t with hc
  refine ⟨_, by rw [formatTimestamp, if_pos ht, ← hc], ?_⟩
  have hdM := daysInMonth_bounds c.year c.month
  simp only [pad4, pad2, List.cons_append, List.nil_append, parseTimestamp]
  rw [if_pos (by norm_num)]
  rw [dec4_pad c.year (by omega), dec2_pad c.month (by omega),
    dec2_pad c.day (by omega), dec2_pad c.hour (by omega),
    dec2_pad c.minute (by omega), dec2_pad c.second (by omega)]
  simp only [dec2_pad 0 (by norm_num)]
  rw [if_pos (by omega)]
  simp only [daysFromEpochOfYear, if_pos hy1970, if_true]
  congr 1
  omega

/-! ### Trace-ordering helper -/

/-- In any prefix (any moment in time) of a trace `xs ++ ys`: if an
event that only occurs in `ys` is already visible, then every event of
`xs` is visible too. -/
theorem mem_take_ordered {α : Type} {xs ys : List α} {a b : α}
    (ha : a ∉ xs) (hb : b ∈ xs) :
    ∀ n, a ∈ (xs ++ ys).take n → b ∈ (xs ++ ys).take n := by
  intro n h
  rw [List.take_append_eq_append_take] at h ⊢
  rcases List.mem_append.mp h with h1 | h1
  · exact absurd (List.take_subset n xs h1) ha
  · have hlen : xs.length ≤ n := by
      by_contra hlt
      push_neg at hlt
      have hz : n - xs.length = 0 := by omega
      rw [hz] at h1
      simp at h1
    refine List.mem_append.mpr (Or.inl ?_)
    rw [List.take_of_length_le hlen]
    exact hb

/-- The `delete_ead` trace on a confirmed 200, split at the
confirmation. -/
theorem delete_ead_200 (rid : Nat) (eadId : String) (xmlP pdfP : FPath) :
    delete_ead (SolrResp.status 200) rid eadId xmlP pdfP =
      [Ev.solrDeleteIdReq eadId, Ev.solrDeleteIdOk eadId] ++
      [Ev.removeFile xmlP, Ev.removeFile pdfP,
       Ev.removeFile ⟨xmlP.dir, FName.resAlias rid⟩] := by
  simp [delete_ead]

/-- Retraction `delete_ead` never writes a document, never creates a symlink and
never requests a PDF job. -/
theorem delete_ead_no_publish (resp : SolrResp) (rid : Nat) (eadId : String)
    (xmlP pdfP : FPath) :
    (∀ p, Ev.writeFile p ∉ delete_ead resp rid eadId xmlP pdfP) ∧
    (∀ tg l, Ev.makeSymlink tg l ∉ delete_ead resp rid eadId xmlP pdfP) ∧
    (∀ r, Ev.pdfJobRequest r ∉ delete_ead resp rid eadId xmlP pdfP) := by
  rcases resp with c | _
  · by_cases hc : c = 200 <;> simp [delete_ead, hc]
  · simp [delete_ead]

/-- Extraction `batchLinks` distributes over trace concatenation. -/
theorem batchLinks_append (repoId xmlDir : String) (t1 t2 : List Ev) :
    batchLinks repoId xmlDir (t1 ++ t2) =
      batchLinks repoId xmlDir t1 ++ batchLinks repoId xmlDir t2 :=
  List.filterMap_append t1 t2 _

/-- A retraction creates no batch symlink. -/
theorem batchLinks_delete_ead (repoId xmlDir : String) (resp : SolrResp)
    (rid : Nat) (eadId : String) (xmlP pdfP : FPath) :
    batchLinks repoId xmlDir (delete_ead resp rid eadId xmlP pdfP) = [] := by
  rcases resp with cc | _
  · by_cases hc : cc = 200 <;> simp [delete_ead, hc, batchLinks]
  · simp [delete_ead, batchLinks]

/-- One `task_resource` call: an eligible record increments the counter
and creates exactly one batch symlink, carrying batch number
`ceil((c+1) / batch_size)`; an ineligible record leaves the counter
unchanged and creates none. -/
theorem task_resource_counter_links (repoId repoUri : String) (rid : Nat)
    (xmlDir pdfDir : String) (c : Nat) (env : TaskEnv) :
    (eligible env = true →
      (task_resource repoId repoUri rid xmlDir pdfDir c env).counter = c + 1 ∧
      batchLinks repoId xmlDir
          (task_resource repoId repoUri rid xmlDir pdfDir c env).trace =
        [(rid, ceilDiv (c + 1) batch_size)]) ∧
    (eligible env = false →
      (task_resource repoId repoUri rid xmlDir pdfDir c env).counter = c ∧
      batchLinks repoId xmlDir
          (task_resource repoId repoUri rid xmlDir pdfDir c env).trace = []) := by
  constructor
  · intro he
    obtain ⟨hp, hs⟩ : env.resource.publish = true ∧ env.resource.suppressed = false := by
      simpa [eligible] using he
    refine ⟨by simp [task_resource, hp, hs], ?_⟩
    rcases hprev : env.prevEad with _ | prev
    · simp [task_resource, hp, hs, hprev, batchLinks]
    · by_cases hne : prev = env.resource.ead_id
      · simp [task_resource, hp, hs, hprev, hne, batchLinks]
      · have hd := batchLinks_delete_ead repoId xmlDir env.solrResp rid (dashify prev)
          ⟨xmlDir, FName.eadXml prev⟩ ⟨pdfDir, FName.eadPdf prev⟩
        simp only [batchLinks] at hd ⊢
        simp [task_resource, hp, hs, hprev, hne, List.filterMap_append, hd]
  · intro he
    have hps : env.resource.publish = false ∨ env.resource.suppressed = true := by
      rcases hp : env.resource.publish <;> rcases hs : env.resource.suppressed <;>
        simp_all [eligible]
    have hbranch : (env.resource.publish && !env.resource.suppressed) = false := by
      rcases hps with h | h <;> simp [h]
    have hd := batchLinks_delete_ead repoId xmlDir env.solrResp rid
      (dashify env.resource.ead_id) ⟨xmlDir, FName.eadXml env.resource.ead_id⟩
      ⟨pdfDir, FName.eadPdf env.resource.ead_id⟩
    constructor
    · simp [task_resource, hbranch]
    · simp only [batchLinks] at hd ⊢
      simp [task_resource, hbranch, hd]

/-- Unfolding of `pubIds` over a cons. -/
theorem pubIds_cons (r : Nat × TaskEnv) (rest : List (Nat × TaskEnv)) :
    pubIds (r :: rest) =
      if eligible r.2 then r.1 :: pubIds rest else pubIds rest := by
  by_cases he : eligible r.2 <;> simp [pubIds, he]

/-- Characterization of the per-partition fold: the final counter is
the starting counter plus the number of published records, and the
batch symlinks created are exactly the spec's batch assignment. -/
theorem runTasks_spec (repoId repoUri xmlDir pdfDir : String)
    (rs : List (Nat × TaskEnv)) : ∀ c : Nat,
    (runTasks repoId repoUri xmlDir pdfDir c rs).1 = c + (pubIds rs).length ∧
    batchLinks repoId xmlDir (runTasks repoId repoUri xmlDir pdfDir c rs).2 =
      specBatchAssignment c (pubIds rs) := by
  induction rs with
  | nil => intro c; simp [runTasks, pubIds, specBatchAssignment, batchLinks]
  | cons r rest ih =>
    intro c
    by_cases he : eligible r.2 = true
    · have ht := (task_resource_counter_links repoId repoUri r.1 xmlDir pdfDir c r.2).1 he
      have hrec := ih (c + 1)
      rw [pubIds_cons, if_pos he]
      constructor
      · simp only [runTasks, ht.1]
        rw [hrec.1]
        simp
        omega
      · simp only [runTasks, ht.1, batchLinks_append, ht.2, hrec.2]
        simp [specBatchAssignment]
    · have he' : eligible r.2 = false := by simpa using he
      have ht := (task_resource_counter_links repoId repoUri r.1 xmlDir pdfDir c r.2).2 he'
      have hrec := ih c
      rw [pubIds_cons, if_neg (by simp [he'])]
      constructor
      · simp only [runTasks, ht.1]
        exact hrec.1
      · simp only [runTasks, ht.1, batchLinks_append, ht.2, hrec.2]
        simp

/-- The record components of the spec batch assignment are exactly the
published records, in order. -/
theorem specBatchAssignment_map_fst (c : Nat) (rids : List Nat) :
    (specBatchAssignment c rids).map Prod.fst = rids := by
  induction rids generalizing c with
  | nil => rfl
  | cons rid rest ih => simp [specBatchAssignment, ih]

/-- Monotonicity of `ceilDiv` in the numerator. -/
theorem ceilDiv_mono {a b : Nat} (B : Nat) (h : a ≤ b) :
    ceilDiv a B ≤ ceilDiv b B :=
  Nat.div_le_div_right (by omega)

/-- Every batch number assigned between running counts `c` and
`c + rids.length` lies between `ceil((c+1)/B)` and
`ceil((c+len)/B)`. -/
theorem specBatchAssignment_bounds (rids : List Nat) : ∀ c : Nat,
    ∀ x ∈ specBatchAssignment c rids,
      ceilDiv (c + 1) batch_size ≤ x.2 ∧
      x.2 ≤ ceilDiv (c + rids.length) batch_size := by
  induction rids with
  | nil => intro c x hx; simp [specBatchAssignment] at hx
  | cons rid rest ih =>
    intro c x hx
    rcases List.mem_cons.mp hx with rfl | hx
    · refine ⟨le_refl _, ceilDiv_mono batch_size (by simp only [List.length_cons]; omega)⟩
    · have := ih (c + 1) x hx
      refine ⟨le_trans (ceilDiv_mono batch_size (by omega)) this.1, ?_⟩
      refine le_trans this.2 (ceilDiv_mono batch_size (by simp only [List.length_cons]; omega))

/-- Membership in the enumerated batch numbers. -/
theorem mem_batchNums (b N : Nat) :
    b ∈ batchNums N ↔ 1 ≤ b ∧ b ≤ ceilDiv N batch_size := by
  simp only [batchNums, List.mem_map, List.mem_range]
  constructor
  · rintro ⟨x, hx, rfl⟩
    omega
  · rintro ⟨h1, h2⟩
    exact ⟨b - 1, by omega, by omega⟩

/-! ### Claim theorems -/

/-- C2: for every retraction (`delete_ead`) and for the full-resync
wipe, local artifacts are removed only after the index deletion
returned status 200: (1) with any non-200 or raised response,
`delete_ead` removes zero local files; (2) at every moment of the
`delete_ead` trace, a file removal implies the confirmed index delete
already happened; (3) and (4) the same two facts for the full-resync
wipe of the xml/pdf directories. -/
theorem c2_delete_before_file (resp : SolrResp) (rid : Nat) (eadId : String)
    (xmlP pdfP : FPath) (xmlDir pdfDir : String) :
    (∀ p, Ev.removeFile p ∈ delete_ead resp rid eadId xmlP pdfP →
      resp = SolrResp.status 200) ∧
    (∀ n p, Ev.removeFile p ∈ (delete_ead resp rid eadId xmlP pdfP).take n →
      Ev.solrDeleteIdOk eadId ∈ (delete_ead resp rid eadId xmlP pdfP).take n) ∧
    (∀ d, Ev.removeTree d ∈ fullResyncWipe resp xmlDir pdfDir →
      resp = SolrResp.status 200) ∧
    (∀ n d, Ev.removeTree d ∈ (fullResyncWipe resp xmlDir pdfDir).take n →
      Ev.solrDeleteAllOk ∈ (fullResyncWipe resp xmlDir pdfDir).take n) := by
  rcases resp with c | _
  · by_cases hc : c = 200
    · subst hc
      refine ⟨fun p _ => rfl, ?_, fun d _ => rfl, ?_⟩
      · intro n p h
        have hshape : delete_ead (SolrResp.status 200) rid eadId xmlP pdfP =
            [Ev.solrDeleteIdReq eadId, Ev.solrDeleteIdOk eadId] ++
            [Ev.removeFile xmlP, Ev.removeFile pdfP,
             Ev.removeFile ⟨xmlP.dir, FName.resAlias rid⟩] := by
          simp [delete_ead]
        rw [hshape] at h ⊢
        exact mem_take_ordered (by simp) (by simp) n h
      · intro n d h
        have hshape : fullResyncWipe (SolrResp.status 200) xmlDir pdfDir =
            [Ev.solrDeleteAllReq, Ev.solrDeleteAllOk] ++
            [Ev.removeTree xmlDir, Ev.removeTree pdfDir] := by
          simp [fullResyncWipe]
        rw [hshape] at h ⊢
        exact mem_take_ordered (by simp) (by simp) n h
    · refine ⟨?_, ?_, ?_, ?_⟩
      · intro p h
        simp [delete_ead, hc] at h
      · intro n p h
        have := List.take_subset n _ h
        simp [delete_ead, hc] at this
      · intro d h
        simp [fullResyncWipe, hc] at h
      · intro n d h
        have := List.take_subset n _ h
        simp [fullResyncWipe, hc] at this
  · refine ⟨?_, ?_, ?_, ?_⟩
    · intro p h
      simp [delete_ead] at h
    · intro n p h
      have := List.take_subset n _ h
      simp [delete_ead] at this
    · intro d h
      simp [fullResyncWipe] at h
    · intro n d h
      have := List.take_subset n _ h
      simp [fullResyncWipe] at this

/-- Collection `collectOutputs` succeeds iff every stored result is a value. -/
theorem collectOutputs_ok_iff {α : Type} (rs : List (Except PyErr α)) :
    (∃ xs, collectOutputs rs = Except.ok xs) ↔ ∀ r ∈ rs, ∃ a, r = Except.ok a := by
  induction rs with
  | nil => simp [collectOutputs]
  | cons r rest ih =>
    rcases r with e | a
    · simp [collectOutputs]
    · constructor
      · rintro ⟨xs, hxs⟩ t ht
        rcases List.mem_cons.mp ht with rfl | ht
        · exact ⟨a, rfl⟩
        · simp only [collectOutputs] at hxs
          rcases hrest : collectOutputs rest with e | ys
          · rw [hrest] at hxs
            exact absurd hxs (by simp)
          · exact ih.mp ⟨ys, hrest⟩ t ht
      · intro h
        obtain ⟨ys, hys⟩ := ih.mpr (fun t ht => h t (List.mem_cons_of_mem _ ht))
        exact ⟨a :: ys, by simp [collectOutputs, hys]⟩

/-- C1 counterexample: a run where one record's fetch raises (and a
second record succeeds) does not reach `save_config_file` — the
exception stored by the pool is re-raised at `outputs_2 = [r.get() ...]`
in `update_eads` and propagates through `run`, so a single record's
failure does prevent `save_config_file` from being reached. -/
theorem c1_counterexample :
    runReachesSave
      [task_resourceE "2" "/repositories/2" 5 "x" "p" 0
        (Except.error ⟨"fetch failed"⟩),
       task_resourceE "2" "/repositories/2" 6 "x" "p" 0
        (Except.ok ⟨⟨true, false, "e.2"⟩, none, SolrResp.status 200, 7⟩)] = false := by
  rfl

/-- C1 (amended): a raised exception in a record's fetch/transform/
publish step is NOT caught inside the per-record task — `task_resource`
propagates it unchanged (conjunct 2) — and the run reaches
`save_config_file` iff no per-record task stored an exception
(conjunct 1): any single record's failure aborts the run before the
checkpoint is saved. -/
theorem c1_record_failure_aborts_run (tasks : List (Except PyErr TaskOut)) :
    (runReachesSave tasks = true ↔ ∀ t ∈ tasks, ∃ out, t = Except.ok out) ∧
    (∀ (repoId repoUri : String) (rid c : Nat) (xmlDir pdfDir : String) (e : PyErr),
      task_resourceE repoId repoUri rid xmlDir pdfDir c (Except.error e) =
        Except.error e) := by
  refine ⟨?_, fun _ _ _ _ _ _ _ => rfl⟩
  unfold runReachesSave
  rcases h : collectOutputs tasks with e | xs
  · simp only [Bool.false_eq_true, false_iff]
    intro hall
    obtain ⟨ys, hys⟩ := (collectOutputs_ok_iff tasks).mpr hall
    rw [h] at hys
    exact absurd hys (by simp)
  · simp only [true_iff]
    exact (collectOutputs_ok_iff tasks).mp ⟨xs, h⟩

/-- Witness for C1 (amended) at a concrete all-successful run: the run
reaches `save_config_file`. -/
theorem c1_record_failure_aborts_run_witness :
    runReachesSave
      [task_resourceE "2" "/repositories/2" 6 "x" "p" 0
        (Except.ok ⟨⟨true, false, "e.2"⟩, none, SolrResp.status 200, 7⟩)] = true := by
  refine (c1_record_failure_aborts_run _).1.mpr ?_
  intro t ht
  rw [List.mem_singleton.mp ht]
  exact ⟨_, rfl⟩

/-- C4: a record is published iff `publish == true` and
`suppressed == false` (conjunct 1, both directions); for an ineligible
record `task_resource` requests no PDF job and returns an all-`None`
job handle, writes no document, creates no symlink (conjunct 2), and
instead retracts the record — with the index delete confirmed, its
index entry, XML file, PDF file and resource symlink are all deleted
(conjunct 3). -/
theorem c4_eligibility_gating (repoId repoUri : String) (rid : Nat)
    (xmlDir pdfDir : String) (c : Nat) (env : TaskEnv) :
    ((∃ p, Ev.writeFile p ∈
        (task_resource repoId repoUri rid xmlDir pdfDir c env).trace) ↔
      (env.resource.publish = true ∧ env.resource.suppressed = false)) ∧
    (env.resource.publish = false ∨ env.resource.suppressed = true →
      (task_resource repoId repoUri rid xmlDir pdfDir c env).pdfJob = none ∧
      (∀ p, Ev.writeFile p ∉
        (task_resource repoId repoUri rid xmlDir pdfDir c env).trace) ∧
      (∀ tg l, Ev.makeSymlink tg l ∉
        (task_resource repoId repoUri rid xmlDir pdfDir c env).trace) ∧
      (∀ r, Ev.pdfJobRequest r ∉
        (task_resource repoId repoUri rid xmlDir pdfDir c env).trace)) ∧
    (env.resource.publish = false ∨ env.resource.suppressed = true →
      env.solrResp = SolrResp.status 200 →
      Ev.solrDeleteIdOk (dashify env.resource.ead_id) ∈
        (task_resource repoId repoUri rid xmlDir pdfDir c env).trace ∧
      Ev.removeFile ⟨xmlDir, FName.eadXml env.resource.ead_id⟩ ∈
        (task_resource repoId repoUri rid xmlDir pdfDir c env).trace ∧
      Ev.removeFile ⟨pdfDir, FName.eadPdf env.resource.ead_id⟩ ∈
        (task_resource repoId repoUri rid xmlDir pdfDir c env).trace ∧
      Ev.removeFile ⟨xmlDir, FName.resAlias rid⟩ ∈
        (task_resource repoId repoUri rid xmlDir pdfDir c env).trace) := by
  rcases hp : env.resource.publish <;> rcases hs : env.resource.suppressed
  · -- publish = false, suppressed = false: retraction branch
    have hd := delete_ead_no_publish env.solrResp rid (dashify env.resource.ead_id)
      ⟨xmlDir, FName.eadXml env.resource.ead_id⟩ ⟨pdfDir, FName.eadPdf env.resource.ead_id⟩
    refine ⟨⟨fun ⟨p, hmem⟩ => ?_, fun h => absurd h.1 (by simp [hp])⟩,
      fun _ => ⟨by simp [task_resource, hp, hs], ?_, ?_, ?_⟩, fun _ hresp => ?_⟩
    · exact absurd hmem (by simpa [task_resource, hp, hs] using hd.1 p)
    · intro p
      simpa [task_resource, hp, hs] using hd.1 p
    · intro tg l
      simpa [task_resource, hp, hs] using hd.2.1 tg l
    · intro r
      simpa [task_resource, hp, hs] using hd.2.2 r
    · rw [show (task_resource repoId repoUri rid xmlDir pdfDir c env).trace =
          delete_ead env.solrResp rid (dashify env.resource.ead_id)
            ⟨xmlDir, FName.eadXml env.resource.ead_id⟩
            ⟨pdfDir, FName.eadPdf env.resource.ead_id⟩ from by
        simp [task_resource, hp, hs], hresp, delete_ead_200]
      refine ⟨by simp, by simp, by simp, by simp⟩
  · -- publish = false, suppressed = true: retraction branch
    have hd := delete_ead_no_publish env.solrResp rid (dashify env.resource.ead_id)
      ⟨xmlDir, FName.eadXml env.resource.ead_id⟩ ⟨pdfDir, FName.eadPdf env.resource.ead_id⟩
    refine ⟨⟨fun ⟨p, hmem⟩ => ?_, fun h => absurd h.1 (by simp [hp])⟩,
      fun _ => ⟨by simp [task_resource, hp, hs], ?_, ?_, ?_⟩, fun _ hresp => ?_⟩
    · exact absurd hmem (by simpa [task_resource, hp, hs] using hd.1 p)
    · intro p
      simpa [task_resource, hp, hs] using hd.1 p
    · intro tg l
      simpa [task_resource, hp, hs] using hd.2.1 tg l
    · intro r
      simpa [task_resource, hp, hs] using hd.2.2 r
    · rw [show (task_resource repoId repoUri rid xmlDir pdfDir c env).trace =
          delete_ead env.solrResp rid (dashify env.resource.ead_id)
            ⟨xmlDir, FName.eadXml env.resource.ead_id⟩
            ⟨pdfDir, FName.eadPdf env.resource.ead_id⟩ from by
        simp [task_resource, hp, hs], hresp, delete_ead_200]
      refine ⟨by simp, by simp, by simp, by simp⟩
  · -- publish = true, suppressed = false: publish branch
    refine ⟨⟨fun _ => ⟨rfl, rfl⟩, fun _ => ?_⟩,
      fun h => by simp at h, fun h => by simp at h⟩
    exact ⟨⟨xmlDir, FName.eadXml env.resource.ead_id⟩, by simp [task_resource, hp, hs]⟩
  · -- publish = true, suppressed = true: retraction branch
    have hd := delete_ead_no_publish env.solrResp rid (dashify env.resource.ead_id)
      ⟨xmlDir, FName.eadXml env.resource.ead_id⟩ ⟨pdfDir, FName.eadPdf env.resource.ead_id⟩
    refine ⟨⟨fun ⟨p, hmem⟩ => ?_, fun h => absurd h.2 (by simp [hs])⟩,
      fun _ => ⟨by simp [task_resource, hp, hs], ?_, ?_, ?_⟩, fun _ hresp => ?_⟩
    · exact absurd hmem (by simpa [task_resource, hp, hs] using hd.1 p)
    · intro p
      simpa [task_resource, hp, hs] using hd.1 p
    · intro tg l
      simpa [task_resource, hp, hs] using hd.2.1 tg l
    · intro r
      simpa [task_resource, hp, hs] using hd.2.2 r
    · rw [show (task_resource repoId repoUri rid xmlDir pdfDir c env).trace =
          delete_ead env.solrResp rid (dashify env.resource.ead_id)
            ⟨xmlDir, FName.eadXml env.resource.ead_id⟩
            ⟨pdfDir, FName.eadPdf env.resource.ead_id⟩ from by
        simp [task_resource, hp, hs], hresp, delete_ead_200]
      refine ⟨by simp, by simp, by simp, by simp⟩

/-- Witness for C4 at a concrete suppressed record: no job handle, and
with a confirmed 200 the index entry, XML, PDF and symlink deletions
are all in the trace. -/
theorem c4_eligibility_gating_witness :
    (task_resource "2" "/repositories/2" 5 "x" "p" 0
      ⟨⟨true, true, "e.1"⟩, none, SolrResp.status 200, 7⟩).pdfJob = none ∧
    Ev.solrDeleteIdOk (dashify "e.1") ∈
      (task_resource "2" "/repositories/2" 5 "x" "p" 0
        ⟨⟨true, true, "e.1"⟩, none, SolrResp.status 200, 7⟩).trace ∧
    Ev.removeFile ⟨"x", FName.eadXml "e.1"⟩ ∈
      (task_resource "2" "/repositories/2" 5 "x" "p" 0
        ⟨⟨true, true, "e.1"⟩, none, SolrResp.status 200, 7⟩).trace := by
  have h := c4_eligibility_gating "2" "/repositories/2" 5 "x" "p" 0
    ⟨⟨true, true, "e.1"⟩, none, SolrResp.status 200, 7⟩
  exact ⟨(h.2.1 (Or.inr rfl)).1, (h.2.2 (Or.inr rfl) rfl).1, (h.2.2 (Or.inr rfl) rfl).2.1⟩

/-- C3: for an eligible record whose previously published EAD id
(resolved from the `{resource_id}.xml` symlink) differs from the
freshly fetched one, `task_resource` retracts the old id (index entry
confirmed deleted, old XML and PDF removed) before the new document is
written — at any moment of the trace where the new document write is
visible, the retraction already happened (conjunct 1) — and
consequently, once the index phase upserts the new document, of the
two EAD ids only the new one is present in the index, whatever the
index held before (conjunct 2). -/
theorem c3_rename_reconciliation (repoId repoUri : String) (rid : Nat)
    (xmlDir pdfDir : String) (c : Nat) (env : TaskEnv) (prev : String)
    (T : List Ev)
    (hT : T = (task_resource repoId repoUri rid xmlDir pdfDir c env).trace)
    (hpub : env.resource.publish = true) (hsup : env.resource.suppressed = false)
    (hprev : env.prevEad = some prev) (hne : prev ≠ env.resource.ead_id)
    (hresp : env.solrResp = SolrResp.status 200) :
    (∀ n, Ev.writeFile ⟨xmlDir, FName.eadXml env.resource.ead_id⟩ ∈ T.take n →
      Ev.solrDeleteIdOk (dashify prev) ∈ T.take n ∧
      Ev.removeFile ⟨xmlDir, FName.eadXml prev⟩ ∈ T.take n ∧
      Ev.removeFile ⟨pdfDir, FName.eadPdf prev⟩ ∈ T.take n) ∧
    (∀ idx q, q ∈ solrUpsert (dashify env.resource.ead_id) (runSolr idx T) →
      q = dashify prev ∨ q = dashify env.resource.ead_id →
      q = dashify env.resource.ead_id) := by
  have hshape : T =
      [Ev.pdfJobRequest rid,
       Ev.solrDeleteIdReq (dashify prev), Ev.solrDeleteIdOk (dashify prev),
       Ev.removeFile ⟨xmlDir, FName.eadXml prev⟩,
       Ev.removeFile ⟨pdfDir, FName.eadPdf prev⟩,
       Ev.removeFile ⟨xmlDir, FName.resAlias rid⟩] ++
      [Ev.writeFile ⟨xmlDir, FName.eadXml env.resource.ead_id⟩,
       Ev.makeSymlink (FName.eadXml env.resource.ead_id) ⟨xmlDir, FName.resAlias rid⟩,
       Ev.makeSymlink (FName.eadXml env.resource.ead_id)
         ⟨xmlDir, FName.batchAlias repoId rid (ceilDiv (c + 1) batch_size)⟩] := by
    rw [hT]
    simp [task_resource, hpub, hsup, hprev, hresp, hne, delete_ead]
  constructor
  · intro n hmem
    rw [hshape] at hmem ⊢
    refine ⟨mem_take_ordered (by simp) (by simp) n hmem,
      mem_take_ordered (by simp) ?_ n hmem,
      mem_take_ordered (by simp) (by simp) n hmem⟩
    simp
  · intro idx q hq hcases
    rw [hshape] at hq
    simp only [runSolr, List.foldl, applySolr] at hq
    simp only [solrUpsert, List.mem_cons, List.mem_filter, bne_iff_ne, ne_eq] at hq
    rcases hq with hq | hq
    · exact hq
    · rcases hcases with hc | hc
      · exact absurd hc hq.1.2
      · exact hc

/-- Witness for C3 at the rename `e.1 → e.2`: in the 7-step prefix
(which is where the new write first appears), the old id's confirmed
index delete and both old file removals are present, and after the
upsert the old Solr id is gone while the new one is present. -/
theorem c3_rename_reconciliation_witness :
    (Ev.solrDeleteIdOk (dashify "e.1") ∈
      ((task_resource "2" "/repositories/2" 5 "x" "p" 0
        ⟨⟨true, false, "e.2"⟩, some "e.1", SolrResp.status 200, 7⟩).trace).take 7 ∧
     Ev.removeFile ⟨"x", FName.eadXml "e.1"⟩ ∈
      ((task_resource "2" "/repositories/2" 5 "x" "p" 0
        ⟨⟨true, false, "e.2"⟩, some "e.1", SolrResp.status 200, 7⟩).trace).take 7 ∧
     Ev.removeFile ⟨"p", FName.eadPdf "e.1"⟩ ∈
      ((task_resource "2" "/repositories/2" 5 "x" "p" 0
        ⟨⟨true, false, "e.2"⟩, some "e.1", SolrResp.status 200, 7⟩).trace).take 7) ∧
    (∀ q, q ∈ solrUpsert (dashify "e.2")
        (runSolr [dashify "e.1"]
          (task_resource "2" "/repositories/2" 5 "x" "p" 0
            ⟨⟨true, false, "e.2"⟩, some "e.1", SolrResp.status 200, 7⟩).trace) →
      q = dashify "e.1" ∨ q = dashify "e.2" → q = dashify "e.2") := by
  have h := c3_rename_reconciliation "2" "/repositories/2" 5 "x" "p" 0
    ⟨⟨true, false, "e.2"⟩, some "e.1", SolrResp.status 200, 7⟩ "e.1" _ rfl rfl rfl rfl
    (by decide) rfl
  exact ⟨h.1 7 (by decide), fun q hq => h.2 [dashify "e.1"] q hq⟩

/-- C6 counterexample: with the checkpoint file missing and no
`--force-update` (and no live PID lock), `__init__` exits at the
missing-checkpoint site — but the source calls `exit(0)` there, so the
exit code is 0, not nonzero; exit code 0 is therefore not reserved for
success and the already-running early exit. -/
theorem c6_counterexample :
    (arcflowInit ⟨none, fun _ => false, 42, false, none, true, true⟩).exited =
      some InitExit.missingCheckpoint ∧
    exitCode InitExit.missingCheckpoint = 0 := ⟨rfl, rfl⟩

/-- C6 (amended): on a missing checkpoint file without forced resync,
on an unparsable checkpoint timestamp, and on a missing credential
file, the process does exit immediately during `__init__`, before any
sync work — but with exit code 0: every `exit(...)` call in `__init__`
passes 0 (conjunct 1), the missing-checkpoint and bad-timestamp exits
happen with no checkpoint value loaded (conjuncts 2 and 3), and
initialization never completes without the credential file
(conjunct 4). -/
theorem c6_fatal_exits_use_code_zero (env : InitEnv) (content : List Nat) :
    (∀ e : InitExit, exitCode e = 0) ∧
    (is_running env = false → env.checkpointContent = none →
      env.forceUpdate = false →
      (arcflowInit env).exited = some InitExit.missingCheckpoint ∧
      (arcflowInit env).lastUpdated = none) ∧
    (is_running env = false → env.checkpointContent = some content →
      parseTimestamp content = none →
      (arcflowInit env).exited = some InitExit.badTimestamp ∧
      (arcflowInit env).lastUpdated = none) ∧
    (is_running env = false → env.credsPresent = false →
      ∃ e, (arcflowInit env).exited = some e) := by
  refine ⟨fun e => by cases e <;> rfl, ?_, ?_, ?_⟩
  · intro hrun hchk hforce
    simp [arcflowInit, hrun, hchk, hforce]
  · intro hrun hchk hparse
    simp [arcflowInit, hrun, hchk, hparse]
  · intro hrun hcreds
    rcases hchk : env.checkpointContent with _ | content'
    · rcases hforce : env.forceUpdate with _ | _
      · exact ⟨InitExit.missingCheckpoint, by simp [arcflowInit, hrun, hchk, hforce]⟩
      · exact ⟨InitExit.missingCreds, by simp [arcflowInit, hrun, hchk, hforce, hcreds]⟩
    · rcases hparse : parseTimestamp content' with _ | ts
      · exact ⟨InitExit.badTimestamp, by simp [arcflowInit, hrun, hchk, hparse]⟩
      · exact ⟨InitExit.missingCreds, by simp [arcflowInit, hrun, hchk, hparse, hcreds]⟩

/-- Witness for C6 (amended) at concrete environments: the
bad-timestamp exit on garbage checkpoint content, and the
missing-credentials exit. -/
theorem c6_fatal_exits_use_code_zero_witness :
    (arcflowInit ⟨none, fun _ => false, 42, false, some [120], true, true⟩).exited =
      some InitExit.badTimestamp ∧
    (∃ e, (arcflowInit ⟨none, fun _ => false, 42, true, none, false, true⟩).exited =
      some e) := by
  refine ⟨((c6_fatal_exits_use_code_zero
    ⟨none, fun _ => false, 42, false, some [120], true, true⟩ [120]).2.2.1
    rfl rfl (by decide)).1, ?_⟩
  exact (c6_fatal_exits_use_code_zero
    ⟨none, fun _ => false, 42, true, none, false, true⟩ []).2.2.2 rfl rfl

/-- C8: when the PID file names a pid the OS reports alive,
`__init__` exits at the already-running site with exit code 0, the PID
file is not overwritten and the checkpoint file is never opened
(conjunct 1); when `is_running` is false — the PID file names a dead
pid or is absent (conjuncts 3-5 characterize `is_running`) — startup
proceeds and the PID file is overwritten with the current process id
(conjunct 2). -/
theorem c8_single_instance (env : InitEnv) :
    (is_running env = true →
      (arcflowInit env).exited = some InitExit.alreadyRunning ∧
      exitCode InitExit.alreadyRunning = 0 ∧
      (arcflowInit env).pidFileAfter = env.pidFile ∧
      (arcflowInit env).checkpointOpened = false) ∧
    (is_running env = false →
      (arcflowInit env).pidFileAfter = some env.curPid ∧
      (arcflowInit env).exited ≠ some InitExit.alreadyRunning) ∧
    (∀ p, env.pidFile = some p → env.alive p = true → is_running env = true) ∧
    (∀ p, env.pidFile = some p → env.alive p = false → is_running env = false) ∧
    (env.pidFile = none → is_running env = false) := by
  refine ⟨?_, ?_, ?_, ?_, ?_⟩
  · intro hrun
    simp [arcflowInit, hrun, exitCode]
  · intro hrun
    unfold arcflowInit
    rw [hrun]
    simp only [Bool.false_eq_true, if_false]
    rcases hchk : env.checkpointContent with _ | content
    · rcases env.forceUpdate <;> rcases env.credsPresent <;> rcases env.authOk <;> simp
    · rcases hp : parseTimestamp content with _ | ts <;>
        rcases env.credsPresent <;> rcases env.authOk <;> simp [hp]
  · intro p hp halive
    simp [is_running, hp, halive]
  · intro p hp hdead
    simp [is_running, hp, hdead]
  · intro hp
    simp [is_running, hp]

/-- Witness for C8: a second orchestrator seeing a live pid 7 exits
without overwriting the PID file or opening the checkpoint; one seeing
a dead pid 7 proceeds and overwrites the PID file with its own pid 9. -/
theorem c8_single_instance_witness :
    ((arcflowInit ⟨some 7, fun p => p == 7, 9, false, none, true, true⟩).exited =
        some InitExit.alreadyRunning ∧
      (arcflowInit ⟨some 7, fun p => p == 7, 9, false, none, true, true⟩).pidFileAfter =
        some 7 ∧
      (arcflowInit ⟨some 7, fun p => p == 7, 9, false, none, true, true⟩).checkpointOpened =
        false) ∧
    (arcflowInit ⟨some 7, fun _ => false, 9, false, none, true, true⟩).pidFileAfter =
      some 9 := by
  have h1 := (c8_single_instance ⟨some 7, fun p => p == 7, 9, false, none, true, true⟩).1 rfl
  have h2 := ((c8_single_instance ⟨some 7, fun _ => false, 9, false, none, true, true⟩).2.1) rfl
  exact ⟨⟨h1.1, h1.2.2.1, h1.2.2.2⟩, h2.1⟩

/-- Witness for C2 at a concrete retraction: with a confirmed 200 the
xml file removal is in the trace and the confirmation precedes it in
every prefix that contains it; with a 500 response the trace removes
nothing. -/
theorem c2_delete_before_file_witness :
    (Ev.removeFile ⟨"x", FName.eadXml "e.1"⟩ ∈
      delete_ead (SolrResp.status 200) 5 "e-1" ⟨"x", FName.eadXml "e.1"⟩
        ⟨"p", FName.eadPdf "e.1"⟩) ∧
    (Ev.solrDeleteIdOk "e-1" ∈
      (delete_ead (SolrResp.status 200) 5 "e-1" ⟨"x", FName.eadXml "e.1"⟩
        ⟨"p", FName.eadPdf "e.1"⟩).take 3) ∧
    (∀ p, Ev.removeFile p ∉
      delete_ead (SolrResp.status 500) 5 "e-1" ⟨"x", FName.eadXml "e.1"⟩
        ⟨"p", FName.eadPdf "e.1"⟩) := by
  refine ⟨by decide, ?_, ?_⟩
  · exact (c2_delete_before_file (SolrResp.status 200) 5 "e-1"
      ⟨"x", FName.eadXml "e.1"⟩ ⟨"p", FName.eadPdf "e.1"⟩ "x" "p").2.1 3
      (⟨"x", FName.eadXml "e.1"⟩ : FPath) (by decide)
  · intro p h
    exact absurd ((c2_delete_before_file (SolrResp.status 500) 5 "e-1"
      ⟨"x", FName.eadXml "e.1"⟩ ⟨"p", FName.eadPdf "e.1"⟩ "x" "p").1 p h)
      (by decide)

/-- C7: for a partition publishing its records with `batch_size`
1000: the final counter equals the number N of published records
(conjunct 1); `update_eads` enumerates exactly `ceil(N / 1000)`
indexer invocations (conjunct 2); the batch symlinks created are
exactly the spec's assignment — the record at running count k gets
batch number `ceil(k / 1000)` at the moment of its increment
(conjunct 3); their record components are exactly the published
records, each exactly once, in order (conjunct 4); and every batch
symlink is globbed by exactly the invocation of its own batch number —
its number is among the enumerated ones, it belongs to its own batch's
glob, and to no other (conjunct 5): no record is skipped and none
appears in two batches. -/
theorem c7_batch_completeness (repoId repoUri xmlDir pdfDir : String)
    (rs : List (Nat × TaskEnv)) :
    ((runTasks repoId repoUri xmlDir pdfDir 0 rs).1 = (pubIds rs).length) ∧
    ((batchNums (pubIds rs).length).length = ceilDiv (pubIds rs).length batch_size) ∧
    (batchLinks repoId xmlDir (runTasks repoId repoUri xmlDir pdfDir 0 rs).2 =
      specBatchAssignment 0 (pubIds rs)) ∧
    ((batchLinks repoId xmlDir (runTasks repoId repoUri xmlDir pdfDir 0 rs).2).map
      Prod.fst = pubIds rs) ∧
    (∀ x ∈ batchLinks repoId xmlDir (runTasks repoId repoUri xmlDir pdfDir 0 rs).2,
      x.2 ∈ batchNums (pubIds rs).length ∧
      x ∈ (batchLinks repoId xmlDir
            (runTasks repoId repoUri xmlDir pdfDir 0 rs).2).filter
          (fun y => y.2 == x.2) ∧
      ∀ b, x ∈ (batchLinks repoId xmlDir
            (runTasks repoId repoUri xmlDir pdfDir 0 rs).2).filter
          (fun y => y.2 == b) → b = x.2) := by
  obtain ⟨hcount, hlinks⟩ := runTasks_spec repoId repoUri xmlDir pdfDir rs 0
  refine ⟨by simpa using hcount, by simp [batchNums], hlinks,
    by rw [hlinks]; exact specBatchAssignment_map_fst 0 (pubIds rs), ?_⟩
  intro x hx
  have hb := specBatchAssignment_bounds (pubIds rs) 0 x (by rwa [hlinks] at hx)
  have h1 : ceilDiv (0 + 1) batch_size = 1 := by decide
  refine ⟨(mem_batchNums x.2 (pubIds rs).length).mpr ⟨by omega, by simpa using hb.2⟩,
    List.mem_filter.mpr ⟨hx, by simp⟩, ?_⟩
  intro b hbmem
  have hxb : x.2 = b := by simpa using (List.mem_filter.mp hbmem).2
  exact hxb.symm

/-- Witness for C7 at the spec's example scenario: partition "2" with
records 101 (`x.1`), 102 (`x.2`) and suppressed 103 — two records are
published, one indexer invocation (batch 1) is enumerated, and the
batch symlinks are exactly 101 and 102 in batch 1. -/
theorem c7_batch_completeness_witness :
    batchLinks "2" "x" (runTasks "2" "/repositories/2" "x" "p" 0
        [(101, ⟨⟨true, false, "x.1"⟩, none, SolrResp.status 200, 7⟩),
         (102, ⟨⟨true, false, "x.2"⟩, none, SolrResp.status 200, 8⟩),
         (103, ⟨⟨true, true, "x.3"⟩, none, SolrResp.status 200, 9⟩)]).2 =
      [(101, 1), (102, 1)] ∧
    (runTasks "2" "/repositories/2" "x" "p" 0
        [(101, ⟨⟨true, false, "x.1"⟩, none, SolrResp.status 200, 7⟩),
         (102, ⟨⟨true, false, "x.2"⟩, none, SolrResp.status 200, 8⟩),
         (103, ⟨⟨true, true, "x.3"⟩, none, SolrResp.status 200, 9⟩)]).1 = 2 := by
  constructor
  · exact (c7_batch_completeness "2" "/repositories/2" "x" "p"
      [(101, ⟨⟨true, false, "x.1"⟩, none, SolrResp.status 200, 7⟩),
       (102, ⟨⟨true, false, "x.2"⟩, none, SolrResp.status 200, 8⟩),
       (103, ⟨⟨true, true, "x.3"⟩, none, SolrResp.status 200, 9⟩)]).2.2.1.trans
      (by decide)
  · exact (c7_batch_completeness "2" "/repositories/2" "x" "p"
      [(101, ⟨⟨true, false, "x.1"⟩, none, SolrResp.status 200, 7⟩),
       (102, ⟨⟨true, false, "x.2"⟩, none, SolrResp.status 200, 8⟩),
       (103, ⟨⟨true, true, "x.3"⟩, none, SolrResp.status 200, 9⟩)]).1.trans
      (by decide)

/-- C9: when the first terminal status `task_pdf` polls is `canceled`
or `failed`, it logs the failure, writes the zero-byte placeholder to
`{pdf_dir}/{ead_id}.pdf` and returns `True` rather than raising; when
it is `completed`, the fetched job output bytes are written to that
same path (with no failure logged), again returning `True`. -/
theorem c9_pdf_failure_placeholder (eadId pdfDir : String) (outputBytes : List Nat)
    (pre : List JobStatus) (s : JobStatus) (rest : List JobStatus)
    (hpre : ∀ x ∈ pre, isTerminal x = false) (hterm : isTerminal s = true) :
    (s = JobStatus.canceled ∨ s = JobStatus.failed →
      task_pdf eadId pdfDir outputBytes (pre ++ s :: rest) =
        some ⟨⟨pdfDir, FName.eadPdf eadId⟩, [], true, true⟩) ∧
    (s = JobStatus.completed →
      task_pdf eadId pdfDir outputBytes (pre ++ s :: rest) =
        some ⟨⟨pdfDir, FName.eadPdf eadId⟩, outputBytes, false, true⟩) := by
  induction pre with
  | nil =>
    constructor
    · rintro (rfl | rfl) <;> simp [task_pdf, isTerminal]
    · rintro rfl
      simp [task_pdf, isTerminal]
  | cons x pre ih =>
    have hx := hpre x (List.mem_cons_self x pre)
    have := ih (fun y hy => hpre y (List.mem_cons_of_mem x hy))
    simpa [task_pdf, hx] using this

/-- Witness for C9: a job polled `queued`, `running`, `failed` writes
the empty placeholder and returns `True`; one polled `queued`,
`completed` writes the output bytes. -/
theorem c9_pdf_failure_placeholder_witness :
    task_pdf "e.1" "p" [37, 80, 68, 70]
        [JobStatus.queued, JobStatus.running, JobStatus.failed] =
      some ⟨⟨"p", FName.eadPdf "e.1"⟩, [], true, true⟩ ∧
    task_pdf "e.1" "p" [37, 80, 68, 70] [JobStatus.queued, JobStatus.completed] =
      some ⟨⟨"p", FName.eadPdf "e.1"⟩, [37, 80, 68, 70], false, true⟩ := by
  constructor
  · exact (c9_pdf_failure_placeholder "e.1" "p" [37, 80, 68, 70]
      [JobStatus.queued, JobStatus.running] JobStatus.failed [] (by decide) rfl).1
      (Or.inr rfl)
  · exact (c9_pdf_failure_placeholder "e.1" "p" [37, 80, 68, 70]
      [JobStatus.queued] JobStatus.completed [] (by decide) rfl).2 rfl

/-- C5: the checkpoint persisted at the end of a successful run is the
formatted `start_time` captured at run start — it parses back to
exactly `startTime`, which differs from the end-of-run clock whenever
the run took nonzero time — and, assuming the clock at this run's start
is at or after the previously persisted checkpoint, the persisted value
is at least the value read at startup. -/
theorem c5_checkpoint_watermark (r : RunTimes) (hlt : r.startTime < maxTimestamp)
    (hclock : r.prevLastUpdated ≤ r.startTime) :
    ∃ s, savedCheckpoint r = some s ∧
      parseTimestamp s = some (r.startTime : Int) ∧
      (r.prevLastUpdated : Int) ≤ (r.startTime : Int) ∧
      (0 < r.elapsed → r.startTime ≠ endTime r) := by
  obtain ⟨s, hfmt, hparse⟩ := formatTimestamp_roundTrip r.startTime hlt
  refine ⟨s, hfmt, hparse, by exact_mod_cast hclock, ?_⟩
  unfold endTime
  omega

/-- Witness for C5: a run starting at epoch second 1760227200 with a
previous checkpoint of 1700000000 and one hour of elapsed work persists
a string denoting 1760227200. -/
theorem c5_checkpoint_watermark_witness :
    ∃ s, savedCheckpoint ⟨1700000000, 1760227200, 3600⟩ = some s ∧
      parseTimestamp s = some (1760227200 : Int) ∧
      ((1700000000 : Nat) : Int) ≤ ((1760227200 : Nat) : Int) ∧
      (0 < 3600 → 1760227200 ≠ endTime ⟨1700000000, 1760227200, 3600⟩) :=
  c5_checkpoint_watermark ⟨1700000000, 1760227200, 3600⟩ (by decide) (by decide)

/-- C10 counterexample: the claim quantifies over every integer Unix
timestamp, but at `t = 253402300800` (the first second of year 10000)
the formatting step itself fails — `datetime.fromtimestamp` raises
`ValueError: year 10000 is out of range` — so the format/parse round
trip does not hold for every integer timestamp. -/
theorem c10_counterexample : formatTimestamp 253402300800 = none := by
  rw [formatTimestamp, if_neg]
  decide

/-- C10 (amended): for every Unix timestamp `t` whose UTC datetime
`datetime` can represent (`0 ≤ t < 253402300800`, i.e. up to year
9999), formatting `t` with `'%Y-%m-%dT%H:%M:%S%z'` as
`save_config_file` does succeeds, and parsing the result with
`strptime` under the same pattern yields the same instant at second
precision — hence a checkpoint written by a successful run is always
parsed without error by the next run. -/
theorem c10_format_parse_round_trip (t : Nat) (ht : t < maxTimestamp) :
    ∃ s, formatTimestamp t = some s ∧ parseTimestamp s = some (t : Int) :=
  formatTimestamp_roundTrip t ht

/-- Witness for C10 at `t = 1760227200` (2025-10-12T00:00:00+0000). -/
theorem c10_format_parse_round_trip_witness :
    ∃ s, formatTimestamp 1760227200 = some s ∧
      parseTimestamp s = some ((1760227200 : Nat) : Int) :=
  c10_format_parse_round_trip 1760227200 (by decide)

end ArcFlow
